import Mathlib

/-!
# Verification of the datman job-submission scripts

Shallow embedding of `bin/dm-proc-freesurfer.py` and `bin/dm_fmriprep.py`.

The filesystem is modelled as an association list of (path, content) pairs
plus a list of directory paths.  Side effects of a run (directory creation,
script writing, queue submission through `dm.utils.run` or `qsub`, checklist
CSV writing, error logging, `sys.exit`) are modelled as an explicit event
trace.  External library calls whose results the scripts merely consume
(`dm.proc.get_subject_list`, `dm.proc.load_checklist`/`add_new_subjects`/
`find_images`, process return codes, `tempfile` names, timestamps) are taken
as oracle inputs.
-/

set_option maxRecDepth 8000

namespace Datman

/-! ## Path and string helpers (os.path.join, os.path.basename, Python `in`) -/

/-- `os.path.join a b` for a relative second component. -/
def pjoin (a b : String) : String := a ++ "/" ++ b

/-- Worker for `splitChar`: split a char list at a separator, keeping empty
pieces, as Python's `str.split(sep)` does. -/
def splitCharAux (sep : Char) (cur : List Char) : List Char → List (List Char)
  | [] => [cur.reverse]
  | c :: t =>
    if c = sep then cur.reverse :: splitCharAux sep [] t
    else splitCharAux sep (c :: cur) t

/-- Python's `s.split(sep)` for a one-character separator. -/
def splitChar (sep : Char) (s : String) : List String :=
  (splitCharAux sep [] s.data).map (fun l => ⟨l⟩)

/-- Python's `s[0:n]` slice. -/
def strTake (s : String) (n : Nat) : String := ⟨s.data.take n⟩

/-- `os.path.basename`: the part after the last slash. -/
def basename (p : String) : String := (splitChar '/' p).getLastD ""

/-- Worker for the Python substring test `pat in s`, over char lists. -/
def containsSubAux (pat : List Char) : List Char → Bool
  | [] => pat.isEmpty
  | c :: t => pat.isPrefixOf (c :: t) || containsSubAux pat t

/-- Python's `pat in s` substring containment on strings. -/
def containsSub (s pat : String) : Bool := containsSubAux pat.data s.data

/-! ## Filesystem model -/

/-- A filesystem: files as an association list from path to byte content,
plus a set (list) of directories.  Later writes are consed at the front, so
`lookup` finds the newest version. -/
structure FS where
  files : List (String × String)
  dirs : List String
  deriving DecidableEq

def FS.lookup (fs : FS) (p : String) : Option String :=
  (fs.files.find? (fun kv => kv.1 == p)).map Prod.snd

/-- `os.path.isfile`. -/
def FS.isfile (fs : FS) (p : String) : Bool := (fs.lookup p).isSome

/-- `os.path.isdir`. -/
def FS.isdir (fs : FS) (p : String) : Bool := fs.dirs.contains p

/-- `open(p, 'w')` followed by a full write of `c`. -/
def FS.write (fs : FS) (p c : String) : FS :=
  { fs with files := (p, c) :: fs.files }

/-! ## dm-proc-freesurfer.py : data -/

/-- Module-level global of dm-proc-freesurfer.py (line 86).  `main` assigns
`DRYRUN = arguments['--dry-run']` without a `global` declaration, which
creates a *local* variable inside `main`; this module-level value therefore
stays `False` for the whole run and is what `docmd` reads. -/
def DRYRUN : Bool := false

/-- The arguments `dm.proc.make_piped_qbatch_command` is called with by
`make_FS_command`.  The datman helper itself is outside `src/`, so a queue
submission is modelled by the argument record handed to it.  `pfix` stands
for the source's `prefix` argument throughout this file. -/
structure QBatchCmd where
  job_command : String
  job_name : String
  log_dir : String
  wall_time : String
  afterok : Option String
  deriving DecidableEq

/-- One row of the freesurfer checklist (columns of line 143). -/
structure Row where
  id : String
  T1_nii : Option String
  date_ran : Option String
  qc_rator : Option String
  qc_rating : Option String
  notes : Option String
  deriving DecidableEq

/-- Observable side effects of a run. -/
inductive Event where
  | makedirs (d : String)
  | getSubjectList (input_dir : String) (tag2 qc : Option String)
  | writeScript (path content : String)
  | loadChecklist (path : String) (cols : List String)
  | runStart (cmd : QBatchCmd) (dryrun : Bool)
  | runEnd (cmd : QBatchCmd)
  | writeCsv (path sep : String) (index : Bool)
  | logErr (msg : String)
  | exited (code : Nat)
  | mkstempJob (path : String)
  | popenShell (cmd : String)
  | qsub (cmd : String)
  | removeFile (path : String)
  deriving DecidableEq

/-! ## dm-proc-freesurfer.py : functions -/

/-- Lines 216-220. -/
def post_settings_conflict (NO_POST POSTFS_ONLY : Bool) : Bool :=
  if NO_POST && POSTFS_ONLY then true else false

/-- Lines 222-241. -/
def get_run_script_names (RUN_TAG : Option String) (POSTFS_ONLY NO_POST : Bool) :
    List String :=
  let runFSsh_name :=
    match RUN_TAG with
    | none => "run_freesurfer.sh"
    | some tag => "run_freesurfer_" ++ tag ++ ".sh"
  let runPostsh_name := "postfreesurfer.sh"
  if POSTFS_ONLY then [runPostsh_name]
  else if NO_POST then [runFSsh_name]
  else [runFSsh_name, runPostsh_name]

/-- Lines 283-308 (`make_Freesurfer_runsh`): the byte content written to
`file_name`.  The shell-brace characters are written with `\x7b`/`\x7d`
escapes. -/
def make_Freesurfer_runsh_content (file_name output_dir : String)
    (FS_option : Option String) (pfix : String) : String :=
  let bname := basename file_name
  let header := "#!/bin/bash\n\n"
    ++ ("export SUBJECTS_DIR=" ++ output_dir ++ "\n\n")
    ++ "## Prints loaded modules to the log\nmodule list\n\n"
  if !(containsSub bname "postfreesurfer") then
    header
      ++ "SUBJECT=$\x7b1\x7d\n"
      ++ "shift\n"
      ++ "T1MAPS=$\x7b@\x7d\n"
      ++ "\nrecon-all -all "
      ++ (match FS_option with
          | some o => o ++ " "
          | none => "")
      ++ ("-subjid $\x7bSUBJECT\x7d $\x7bT1MAPS\x7d" ++ " -qcache\n")
  else
    header
      ++ ("ENGIMA_ExtractCortical.sh $\x7bSUBJECTS_DIR\x7d " ++ pfix ++ "\n")
      ++ ("ENGIMA_ExtractSubcortical.sh $\x7bSUBJECTS_DIR\x7d " ++ pfix ++ "\n")

/-- Lines 257-281 (`check_runsh`): regenerate the script into a temp file
with the same basename and byte-compare with `filecmp.cmp` (the fresh temp
file has a fresh mtime, so `filecmp` falls through to a content compare).
`none` = files identical (the old script is used); `some 1` = differences
found, so after logging, `sys.exit(1)`. -/
def check_runsh (fs : FS) (old_script output_dir : String)
    (FS_option : Option String) (pfix : String) : Option Nat :=
  if fs.lookup old_script
      = some (make_Freesurfer_runsh_content old_script output_dir FS_option pfix)
  then none
  else some 1

/-- Lines 243-255 (`write_run_scripts`): for each script name, either check
an existing file (possibly exiting 1) or write it.  Returns the final
filesystem, the trace of effects, and the `sys.exit` code if one happened. -/
def write_run_scripts (script_names : List String) (run_dir output_dir : String)
    (FS_option : Option String) (pfix : String) (fs : FS) :
    FS × List Event × Option Nat :=
  match script_names with
  | [] => (fs, [], none)
  | name :: rest =>
    let runsh := pjoin run_dir name
    if fs.isfile runsh then
      match check_runsh fs runsh output_dir FS_option pfix with
      | none => write_run_scripts rest run_dir output_dir FS_option pfix fs
      | some code => (fs, [Event.exited code], some code)
    else
      let content := make_Freesurfer_runsh_content runsh output_dir FS_option pfix
      let res := write_run_scripts rest run_dir output_dir FS_option pfix
        (fs.write runsh content)
      (res.1, Event.writeScript runsh content :: res.2.1, res.2.2)

/-- Lines 310-314. -/
def subject_previously_completed (fs : FS) (output_dir subject : String) : Bool :=
  fs.isfile (pjoin (pjoin (pjoin output_dir subject) "scripts") "recon-all.done")

/-- Line 172: `glob.glob(os.path.join(output_dir,subid,'scripts','IsRunning*'))`.
A glob `*` matches any characters except `/`. -/
def glob_IsRunning (fs : FS) (output_dir subid : String) : List String :=
  let pat := pjoin (pjoin (pjoin output_dir subid) "scripts") "IsRunning"
  (fs.files.map Prod.fst ++ fs.dirs).filter
    (fun p => pat.data.isPrefixOf p.data && !(p.data.drop pat.data.length).contains '/')

/-- Lines 316-331 (`make_FS_command`).  The Python signature has separate
defaulted `subid`/`T1s` parameters that are always both given or both
absent; they are combined into one `Option` here. -/
def make_FS_command (run_dir sh_name job_name_pre log_dir wall_time : String)
    (sub : Option (String × List String)) : QBatchCmd :=
  match sub with
  | some (subid, T1s) =>
    { job_command := "bash -l " ++ run_dir ++ "/" ++ sh_name ++ " " ++ subid
        ++ " " ++ String.intercalate " " T1s
      job_name := job_name_pre ++ subid
      log_dir := log_dir
      wall_time := wall_time
      afterok := none }
  | none =>
    { job_command := "bash -l " ++ run_dir ++ "/" ++ sh_name
      job_name := job_name_pre ++ "post"
      log_dir := log_dir
      wall_time := wall_time
      afterok := some (job_name_pre ++ "*") }

/-- Lines 341-345 (`docmd`): log, call `dm.utils.run(cmd, dryrun=DRYRUN)`
with the module-level `DRYRUN`, and discard the returned
`(rtn, out, err)` triple.  There is no inspection of `rtn`, no error log
and no exit, whatever the return code was. -/
def docmd (cmd : QBatchCmd) (rtn : Nat) (out err : String) :
    List Event × Option Nat :=
  ([Event.runStart cmd DRYRUN, Event.runEnd cmd], none)

/-- The trace `docmd cmd` leaves: `dm.utils.run` is entered and returns
before `docmd` does (it is a plain synchronous call). -/
def pairEvents (c : QBatchCmd) : List Event :=
  [Event.runStart c DRYRUN, Event.runEnd c]

/-- The context the per-subject loop of `main` (lines 156-196) runs in.
`script0` is `script_names[0]`, `job_name_pre` the source's
`job_name_prefix` (line 151), `today` the value of
`datetime.date.today()`. -/
structure LoopCtx where
  input_dir : String
  output_dir : String
  run_dir : String
  log_dir : String
  TAG2 : Option String
  walltime : String
  script0 : String
  job_name_pre : String
  today : String

/-- Line 161: `if TAG2 and TAG2 not in subid` — true when a tag was given
and does not occur in the subject id. -/
def tag2_skip (TAG2 : Option String) (subid : String) : Bool :=
  match TAG2 with
  | some t => !(containsSub subid t)
  | none => false

/-- One iteration of the loop at lines 157-196: returns the (possibly
updated) checklist row, the effects, and whether a job was submitted. -/
def process_row (ctx : LoopCtx) (fs : FS) (row : Row) : Row × List Event × Bool :=
  let subid := row.id
  -- line 161: `if TAG2 and TAG2 not in subid: continue`
  if tag2_skip ctx.TAG2 subid then
    (row, [], false)
  else
    match row.T1_nii with
    | none => (row, [], false)  -- line 165: `if pd.isnull(...): continue`
    | some smap =>
      if subject_previously_completed fs ctx.output_dir subid then
        (row, [], false)  -- line 168
      else
        -- lines 172-176: halted-run check
        let FSrunning := (glob_IsRunning fs ctx.output_dir subid).headD ""
        if fs.isfile FSrunning then
          ({ row with notes := some ("FS halted at " ++ basename FSrunning) },
            [], false)
        else
          -- lines 179-196: build T1 arguments, submit, stamp the date
          let T1s := (splitChar ';' smap).flatMap
            (fun basemap => ["-i", pjoin (pjoin ctx.input_dir subid) basemap])
          let cmd := make_FS_command ctx.run_dir ctx.script0 ctx.job_name_pre
            ctx.log_dir ctx.walltime (some (subid, T1s))
          ({ row with date_ran := some ctx.today }, pairEvents cmd, true)

/-- The whole loop: processes rows in order; `submitted` is the OR of the
per-row flags (it starts `False` at line 152 and is set at line 196). -/
def run_loop (ctx : LoopCtx) (fs : FS) : List Row → List Row × List Event × Bool
  | [] => ([], [], false)
  | row :: rest =>
    let r := process_row ctx fs row
    let rs := run_loop ctx fs rest
    (r.1 :: rs.1, r.2.1 ++ rs.2.1, r.2.2 || rs.2.2)

/-- The command-line arguments of dm-proc-freesurfer.py that the modelled
control flow reads.  `--multiple-inputs', `--verbose' and `--debug' only
feed external datman calls or the log level and are omitted.  `pfix_opt`
is the `--prefix` option; `dry_run` is the *local* variable that line 105
of `main` creates (the module global `DRYRUN` above stays false). -/
structure Args where
  input_dir : String
  output_dir : String
  QC_file : Option String
  T1_tag : Option String
  TAG2 : Option String
  RUN_TAG : Option String
  FS_option : Option String
  pfix_opt : Option String
  NO_POST : Bool
  POSTFS_ONLY : Bool
  walltime : String
  walltime_post : String
  dry_run : Bool

/-- Lines 142-214 of `main`: everything after the run scripts are in
place.  `fs1` is the filesystem after `write_run_scripts`,
`script_names` the list from line 139.  Returns the trace from the
checklist load onwards and the exit code (always `none`: this part of
`main` runs to the end). -/
def fs_main_core (a : Args) (checklist0 : List Row) (fs1 : FS)
    (script_names : List String) (ts today : String) : List Event × Option Nat :=
  let log_dir := pjoin a.output_dir "logs"
  let run_dir := pjoin a.output_dir "bin"
  -- lines 142-149
  let checklist_file := a.output_dir ++ "/freesurfer-checklist.csv"
  let columns := ["id", "T1_nii", "date_ran", "qc_rator", "qc_rating", "notes"]
  -- line 151
  let job_name_pre := "FS_" ++ ts ++ "_"
  let ctx : LoopCtx :=
    { input_dir := a.input_dir, output_dir := a.output_dir,
      run_dir := run_dir, log_dir := log_dir, TAG2 := a.TAG2,
      walltime := a.walltime, script0 := script_names.headD "",
      job_name_pre := job_name_pre, today := today }
  -- lines 156-196: the loop runs only when not --postFS-only
  let looped :=
    if a.POSTFS_ONLY then (checklist0, ([] : List Event), false)
    else run_loop ctx fs1 checklist0
  -- lines 198-210: the post job
  let postEvents :=
    if a.POSTFS_ONLY then
      pairEvents (make_FS_command run_dir (script_names.headD "")
        job_name_pre log_dir a.walltime_post none)
    else if (!a.NO_POST) && looped.2.2 then
      pairEvents (make_FS_command run_dir ((script_names.drop 1).headD "")
        job_name_pre log_dir a.walltime_post none)
    else []
  -- lines 212-214: guarded by main's *local* dry-run variable
  let csvEvents :=
    if a.dry_run then []
    else [Event.writeCsv checklist_file "," false]
  (Event.loadChecklist checklist_file columns
    :: (looped.2.1 ++ postEvents ++ csvEvents), none)

/-- `main` of dm-proc-freesurfer.py (lines 88-214).  Oracle inputs:
`subjects` is what `dm.proc.get_subject_list` returns; `checklist0` is the
checklist as produced by the external `load_checklist` /
`add_new_subjects_to_checklist` / `find_images` calls; `fs0` the real
filesystem; `ts` the timestamp of line 151; `today` the date of line 194.
`output_dir` is taken as already absolute (`os.path.abspath` and the
`os.path.normpath` of line 142 are the identity on such paths); `os.chdir`
and `os.chmod` are not modelled.  Returns the event trace and the
`sys.exit` code, if any. -/
def fs_main (a : Args) (subjects : List String) (checklist0 : List Row)
    (fs0 : FS) (ts today : String) : List Event × Option Nat :=
  let log_dir := pjoin a.output_dir "logs"
  let run_dir := pjoin a.output_dir "bin"
  let ev0 := [Event.makedirs log_dir, Event.makedirs run_dir]
  -- lines 124-126
  if post_settings_conflict a.NO_POST a.POSTFS_ONLY then
    (ev0 ++ [Event.logErr "--no-postFS and --postFS-only cannot both be set. Exiting",
      Event.exited 1], some 1)
  else
    -- lines 128-133
    let ev1 := ev0 ++ [Event.getSubjectList a.input_dir a.TAG2 a.QC_file]
    if subjects.length = 0 then
      (ev1 ++ [Event.exited 1], some 1)
    else
      -- lines 136-140
      let pfix := a.pfix_opt.getD (strTake (subjects.headD "") 3)
      let script_names := get_run_script_names a.RUN_TAG a.POSTFS_ONLY a.NO_POST
      let w := write_run_scripts script_names run_dir a.output_dir a.FS_option pfix fs0
      match w.2.2 with
      | some code => (ev1 ++ w.2.1, some code)
      | none =>
        let core := fs_main_core a checklist0 w.1 script_names ts today
        (ev1 ++ w.2.1 ++ core.1, core.2)

/-- The queue submissions occurring in a trace. -/
def submitCmds (evs : List Event) : List QBatchCmd :=
  evs.filterMap (fun e =>
    match e with
    | Event.runStart c _ => some c
    | _ => none)

/-- Events that are not submission start/finish markers. -/
def runFree (evs : List Event) : Bool :=
  evs.all (fun e =>
    match e with
    | Event.runStart _ _ => false
    | Event.runEnd _ => false
    | _ => true)

/-- Traces containing no checklist-CSV write. -/
def csvFree (evs : List Event) : Bool :=
  evs.all (fun e =>
    match e with
    | Event.writeCsv _ _ _ => false
    | _ => true)

/-- Every submission runs to completion before anything else happens:
each `runStart` is immediately followed by the matching `runEnd`. -/
def syncOK : List Event → Bool
  | [] => true
  | Event.runStart c _ :: Event.runEnd c2 :: rest => (c == c2) && syncOK rest
  | Event.runStart _ _ :: _ => false
  | Event.runEnd _ :: _ => false
  | _ :: rest => syncOK rest

/-! ## dm_fmriprep.py -/

def DEFAULT_FS_LICENSE : String := "/opt/quarantine/freesurfer/6.0.0/build/license.txt"

def DEFAULT_SIMG : String :=
  "/archive/code/containers/FMRIPREP/poldracklab_fmriprep_1.1.1-2018-06-07-2f08547a0732.img"

/-- Lines 166-182 (`filter_processed`): keep the subjects that do not yet
have a `<out_dir>/<subject>/fmriprep` output directory. -/
def filter_processed (fs : FS) (subjects : List String) (out_dir : String) :
    List String :=
  subjects.filter (fun x => !(fs.isdir (pjoin (pjoin out_dir x) "fmriprep")))

/-- Lines 74-95 (`run_bids_conversion`): Popen of `nii_to_bids.py`; exits 1
when the process fails; otherwise a failed listing of the bids directory
only logs.  `rtn`/`err` model the spawned process result, `bids_listing_ok`
whether `os.listdir` on the bids directory succeeds. -/
def run_bids_conversion (study : String) (subjects : List String) (rtn : Nat)
    (err : String) (bids_listing_ok : Bool) : List Event × Option Nat :=
  let nii2bds_cmd := "nii_to_bids.py " ++ study ++ " " ++ String.intercalate " " subjects
  if rtn ≠ 0 then
    ([Event.popenShell nii2bds_cmd,
      Event.logErr ("datman to BIDS conversion failed! STDERR: " ++ err),
      Event.exited 1], some 1)
  else
    ([Event.popenShell nii2bds_cmd] ++
      (if bids_listing_ok then []
       else [Event.logErr "BIDS directory failed to initialize! Please run nii_to_bids.py manually to debug!",
             Event.logErr ("Failed command: " ++ nii2bds_cmd)]), none)

/-- Lines 274-291 (`write_executable`): `writelines` the commands (no
separator added), then Popen a `chmod +x`; a non-zero chmod return code
logs two errors and exits 1. -/
def write_executable (f : String) (cmds : List String) (chmod_rtn : Nat)
    (err : String) (fs : FS) : FS × List Event × Option Nat :=
  let fs1 := fs.write f (String.join cmds)
  let ev := [Event.writeScript f (String.join cmds),
    Event.popenShell ("chmod +x " ++ f)]
  if chmod_rtn ≠ 0 then
    (fs1, ev ++ [Event.logErr ("Failed to change permissions on " ++ f),
      Event.logErr ("ERR CODE: " ++ err), Event.exited 1], some 1)
  else
    (fs1, ev, none)

/-- Line 202: `'sub-' + subject.split('_')[1] + subject.split('_')[-2]`. -/
def bids_sub (subject : String) : String :=
  let parts := splitChar '_' subject
  "sub-" ++ parts.getD 1 "" ++ parts.getD (parts.length - 2) ""

/-- Lines 208-215: `trap_func`. -/
def trap_func : String :=
  "\n\n    function cleanup()\x7b\n        echo \"Cleaning $HOME\" >> /scratch/jjeyachandra/tmp/testing.txt\n        rm -rf $HOME\n    \x7d\n\n    "

/-- Lines 218-228: `init_cmd` with the `{bids}`/`{simg}`/`{sub}`/`{out}`
fields substituted. -/
def init_cmd (bids simg sub out : String) : String :=
  "\n\n    HOME=$(mktemp -d /tmp/home.XXXXX)\n    WORK=$(mktemp -d $HOME/work.XXXXX)\n    LICENSE=$(mktemp -d $HOME/li.XXXXX)\n    BIDS="
    ++ bids ++ "\n    SIMG=" ++ simg ++ "\n    SUB=" ++ sub ++ "\n    OUT="
    ++ out ++ "\n\n    "

/-- Lines 231-236: `fs_cmd`. -/
def fs_cmd (fs_license : Option String) : String :=
  "\n\n    cp " ++ fs_license.getD DEFAULT_FS_LICENSE
    ++ " $LICENSE/license.txt\n    cat $LICENSE/license.txt >> /scratch/jjeyachandra/tmp/testing.txt\n\n    "

/-- Lines 239-248: `fmri_cmd` (constant; note the trailing blank after
`EXIT` and the backslash line continuations). -/
def fmri_cmd : String :=
  "\n\n    trap cleanup EXIT \n    singularity run -H $HOME -B $BIDS:/bids -B $WORK:/work -B $OUT:/out -B $LICENSE:/li \\\n    $SIMG -vvv \\\n    /bids /out \\\n    participant --participant-label $SUB \\\n    --fs-license-file /li/license.txt\n\n    "

/-- Lines 251-261: `echo_func`. -/
def echo_func : String :=
  "\n\n    echo $HOME >> /scratch/jjeyachandra/tmp/testing.txt\n    echo $WORK >> /scratch/jjeyachandra/tmp/testing.txt\n    echo $LICENSE >> /scratch/jjeyachandra/tmp/testing.txt\n    echo $BIDS >> /scratch/jjeyachandra/tmp/testing.txt\n    echo $SIMG >> /scratch/jjeyachandra/tmp/testing.txt\n    echo $SUB >> /scratch/jjeyachandra/tmp/testing.txt\n    echo $OUT >> /scratch/jjeyachandra/tmp/testing.txt\n\n    "

/-- Lines 185-272 (`gen_jobscript`): the byte content written to the job
file, `[header,trap_func,init_cmd,fs_cmd,echo_func,fmri_cmd,cleanup]`
concatenated by `writelines`. -/
def gen_jobscript (simg env_bids env_out subject : String)
    (fs_license : Option String) : String :=
  "#!/bin/bash" ++ trap_func
    ++ init_cmd env_bids simg (bids_sub subject) env_out
    ++ fs_cmd fs_license ++ echo_func ++ fmri_cmd ++ "\n cleanup \n"

/-- How a modelled Python call ends. -/
inductive Outcome where
  | ok
  | exited (code : Nat)
  | raised (exc : String)
  deriving DecidableEq

/-- Lines 293-314 (`submit_jobfile`).  Its first statement,
`cmd = 'qsub -V {}'.format(job_file, err_path, log_path)`, evaluates the
names `err_path` and `log_path`, which are defined nowhere in
dm_fmriprep.py; the call therefore raises `NameError` before the `qsub`
Popen (which would produce an `Event.qsub`) can be reached. -/
def submit_jobfile (job_file : String) : List Event × Outcome :=
  ([], Outcome.raised "NameError: name err_path is not defined")

/-- The loop at lines 353-361 of `main`.  `job_file` is the `tempfile`
oracle of `gen_jobscript`, `chmod_rtn` the return code of the `chmod`
spawned by `write_executable`.  `initialize_environment` (lines 97-114)
contributes the `makedirs` (its `OSError` is caught and only logged).
Line 358 calls `fetch_fs_recon`, a name that is not defined anywhere in
the file (the function at line 116 is `fetch_fs_recons`), so any
iteration with `--ignore-recon` unset raises `NameError`. -/
def fmriprep_loop (ignore_recon : Bool) (simg bids_dir out_dir : String)
    (fs_license : Option String) (job_file : String) (chmod_rtn : Nat) :
    List String → List Event × Outcome
  | [] => ([], Outcome.ok)
  | subject :: rest =>
    let env_out := pjoin out_dir subject
    let ev1 := [Event.makedirs env_out]
    if !ignore_recon then
      (ev1, Outcome.raised "NameError: name fetch_fs_recon is not defined")
    else
      let content := gen_jobscript simg bids_dir env_out subject fs_license
      let ev2 := ev1 ++ [Event.mkstempJob job_file,
        Event.writeScript job_file content,
        Event.popenShell ("chmod +x " ++ job_file)]
      if chmod_rtn ≠ 0 then
        (ev2 ++ [Event.logErr ("Failed to change permissions on " ++ job_file),
          Event.exited 1], Outcome.exited 1)
      else
        let s := submit_jobfile job_file
        match s.2 with
        | Outcome.ok =>
          let r := fmriprep_loop ignore_recon simg bids_dir out_dir fs_license
            job_file chmod_rtn rest
          (ev2 ++ s.1 ++ r.1, r.2)
        | o => (ev2 ++ s.1, o)

/-- The command-line arguments of dm_fmriprep.py that the modelled control
flow reads (`--quiet`/`--verbose`/`--debug` only set the log level). -/
structure FmriArgs where
  study : String
  subjects : List String
  singularity_image : Option String
  out_dir : Option String
  fs_license : Option String
  rewrite : Bool
  ignore_recon : Bool

/-- `main` of dm_fmriprep.py (lines 316-361).  Oracles: `study_valid`
(whether `datman.config.config` accepts the study), `study_base` and
`data_path` from the datman config, `nii_listing` what `os.listdir` on the
nii path returns, `fs` the filesystem, `job_file`/`chmod_rtn` as in
`fmriprep_loop`.  `proj_subjects` is assigned *only* in the
`if not subjects` branch (line 347), yet line 351 reads it whenever
`--rewrite` is not set — a `NameError` when subject IDs were supplied.
The submission loop of line 353 iterates `subjects`, never
`proj_subjects`. -/
def fmriprep_main (a : FmriArgs) (study_valid : Bool)
    (study_base data_path : String) (nii_listing : List String) (fs : FS)
    (job_file : String) (chmod_rtn : Nat) : List Event × Outcome :=
  if !study_valid then
    ([Event.logErr (a.study ++ " not a valid study ID!"), Event.exited 1],
      Outcome.exited 1)
  else
    let simg := a.singularity_image.getD DEFAULT_SIMG
    let DEFAULT_OUT := pjoin (pjoin study_base "pipelines") "fmriprep"
    let out_dir := a.out_dir.getD DEFAULT_OUT
    -- line 342: run_bids_conversion is commented out
    let bids_dir := pjoin data_path "bids"
    -- lines 346-347
    let proj_subjects : Option (List String) :=
      if a.subjects.isEmpty then
        some (nii_listing.filter (fun s => !(containsSub s "PHA")))
      else none
    -- lines 350-351
    if !a.rewrite then
      match proj_subjects with
      | none => ([], Outcome.raised "NameError: name proj_subjects is not defined")
      | some ps =>
        let _filtered := filter_processed fs ps out_dir
        fmriprep_loop a.ignore_recon simg bids_dir out_dir a.fs_license
          job_file chmod_rtn a.subjects
    else
      fmriprep_loop a.ignore_recon simg bids_dir out_dir a.fs_license
        job_file chmod_rtn a.subjects

/-- The qsub submissions occurring in a trace. -/
def qsubCmds (evs : List Event) : List String :=
  evs.filterMap (fun e =>
    match e with
    | Event.qsub c => some c
    | _ => none)

/-- Modelled from the spec: `dm.utils.run(cmd, dryrun)` (datman code not
under `src/`) "issues single synchronous submissions"; it executes the
command exactly when `dryrun` is not set. -/
def run_executes (dryrun : Bool) : Bool := !dryrun

/-! ## Concrete fixtures used by the witness theorems -/

/-- A filesystem already holding a `run_freesurfer.sh` byte-identical to a
freshly generated one. -/
def fsC1 : FS :=
  { files := [("/proj/FS/bin/run_freesurfer.sh",
      make_Freesurfer_runsh_content "/proj/FS/bin/run_freesurfer.sh" "/proj/FS" none "ABC")],
    dirs := [] }

/-- A filesystem whose existing `run_freesurfer.sh` differs from a freshly
generated one. -/
def fsC1bad : FS :=
  { files := [("/proj/FS/bin/run_freesurfer.sh", "#!/bin/bash\nstale\n")],
    dirs := [] }

/-- A filesystem where subject `SPN01_CMH_0001_01` is already completed and
`SPN01_ZHH_0002_01` has an fmriprep output directory. -/
def fsC2 : FS :=
  { files := [("/proj/FS/SPN01_CMH_0001_01/scripts/recon-all.done", "done")],
    dirs := ["/proj/fmriprep/SPN01_ZHH_0002_01/fmriprep"] }

/-- A checklist row for the completed subject of `fsC2`. -/
def rowC2 : Row :=
  { id := "SPN01_CMH_0001_01", T1_nii := some "T1.nii.gz", date_ran := none,
    qc_rator := none, qc_rating := none, notes := none }

/-- Loop context over `fsC2`'s project. -/
def ctxC2 : LoopCtx :=
  { input_dir := "/proj/nii", output_dir := "/proj/FS",
    run_dir := "/proj/FS/bin", log_dir := "/proj/FS/logs", TAG2 := none,
    walltime := "24:00:00", script0 := "run_freesurfer.sh",
    job_name_pre := "FS_20260101-000000_", today := "2026-01-01" }

/-- A qbatch command record used by the C3 counterexample. -/
def cmdC3 : QBatchCmd :=
  make_FS_command "/proj/FS/bin" "run_freesurfer.sh" "FS_20260101-000000_"
    "/proj/FS/logs" "24:00:00"
    (some ("SPN01_CMH_0001_01", ["-i", "/proj/nii/SPN01_CMH_0001_01/T1.nii.gz"]))

/-- Arguments for a plain full run (no flags), used by several witnesses. -/
def argsW : Args :=
  { input_dir := "/proj/nii", output_dir := "/proj/FS", QC_file := none,
    T1_tag := none, TAG2 := none, RUN_TAG := none, FS_option := none,
    pfix_opt := none, NO_POST := false, POSTFS_ONLY := false,
    walltime := "24:00:00", walltime_post := "2:00:00", dry_run := false }

/-- `argsW` with `--dry-run` set. -/
def argsDry : Args := { argsW with dry_run := true }

/-- `argsW` with both `--no-postFS` and `--postFS-only` set. -/
def argsConflict : Args := { argsW with NO_POST := true, POSTFS_ONLY := true }

/-- One not-yet-processed subject row. -/
def rowFresh : Row :=
  { id := "SPN01_CMH_0002_01", T1_nii := some "T1.nii.gz", date_ran := none,
    qc_rator := none, qc_rating := none, notes := none }

/-- The empty filesystem. -/
def fsEmpty : FS := { files := [], dirs := [] }

/-- The recon submission that a run over `rowFresh` issues (used by the
C9 witness). -/
def cmdC9 : QBatchCmd :=
  make_FS_command (pjoin "/proj/FS" "bin") "run_freesurfer.sh"
    ("FS_" ++ "20260101-000000" ++ "_") (pjoin "/proj/FS" "logs") "24:00:00"
    (some ("SPN01_CMH_0002_01", ["-i", "/proj/nii/SPN01_CMH_0002_01/T1.nii.gz"]))

/-- fmriprep arguments with explicitly supplied subjects and `--rewrite`
and `--ignore-recon` set (the path that gets furthest before failing). -/
def fargsW : FmriArgs :=
  { study := "SPINS", subjects := ["SPN01_CMH_0001_01"],
    singularity_image := none, out_dir := none, fs_license := none,
    rewrite := true, ignore_recon := true }

/-! # Theorems

First the auxiliary lemmas about the model, then one theorem per claim
(with its witness or counterexample). -/

/-- A write changes `lookup` only at the written path. -/
theorem FS.lookup_write (fs : FS) (q d p : String) :
    (fs.write q d).lookup p = if p = q then some d else fs.lookup p := by
  by_cases h : p = q
  · subst h
    simp [FS.write, FS.lookup]
  · have hq : (q == p) = false := by
      simp only [beq_eq_false_iff_ne, ne_eq]
      exact fun e => h e.symm
    simp [FS.write, FS.lookup, List.find?, hq, h]

/-- `check_runsh` can only exit with status 1. -/
theorem check_runsh_eq_some (fs : FS) (old output_dir : String)
    (FS_option : Option String) (pfix : String) (code : Nat)
    (h : check_runsh fs old output_dir FS_option pfix = some code) : code = 1 := by
  unfold check_runsh at h
  split at h
  · exact absurd h (by simp)
  · simpa using h.symm

/-- `check_runsh` passes exactly when the existing file equals a freshly
generated script. -/
theorem check_runsh_eq_none (fs : FS) (old output_dir : String)
    (FS_option : Option String) (pfix : String)
    (h : check_runsh fs old output_dir FS_option pfix = none) :
    fs.lookup old = some (make_Freesurfer_runsh_content old output_dir FS_option pfix) := by
  unfold check_runsh at h
  split at h
  · assumption
  · exact absurd h (by simp)

/-- `write_run_scripts` never changes the content of a file that already
exists: existing scripts are reused verbatim. -/
theorem write_run_scripts_preserves (script_names : List String)
    (run_dir output_dir : String) (FS_option : Option String) (pfix : String)
    (fs : FS) (p c : String) (h : fs.lookup p = some c) :
    ((write_run_scripts script_names run_dir output_dir FS_option pfix fs).1).lookup p
      = some c := by
  induction script_names generalizing fs with
  | nil => simpa [write_run_scripts] using h
  | cons name rest ih =>
    by_cases hf : fs.isfile (pjoin run_dir name) = true
    · cases hc : check_runsh fs (pjoin run_dir name) output_dir FS_option pfix with
      | none => simpa [write_run_scripts, hf, hc] using ih fs h
      | some code => simpa [write_run_scripts, hf, hc] using h
    · have hne : p ≠ pjoin run_dir name := by
        intro e
        subst e
        simp [FS.isfile, h] at hf
      have h2 : (fs.write (pjoin run_dir name)
          (make_Freesurfer_runsh_content (pjoin run_dir name) output_dir FS_option pfix)).lookup p
          = some c := by
        rw [FS.lookup_write]
        simp [hne, h]
      simpa [write_run_scripts, hf] using ih _ h2

/-- If any requested script already exists with different bytes,
`write_run_scripts` ends in `sys.exit(1)`. -/
theorem write_run_scripts_mismatch (script_names : List String)
    (run_dir output_dir : String) (FS_option : Option String) (pfix : String)
    (fs : FS) (name : String) (hmem : name ∈ script_names) (c : String)
    (hlk : fs.lookup (pjoin run_dir name) = some c)
    (hne : c ≠ make_Freesurfer_runsh_content (pjoin run_dir name) output_dir FS_option pfix) :
    (write_run_scripts script_names run_dir output_dir FS_option pfix fs).2.2 = some 1 := by
  induction script_names generalizing fs with
  | nil => cases hmem
  | cons n0 rest ih =>
    rcases List.mem_cons.mp hmem with he | hm
    · subst he
      have hf : fs.isfile (pjoin run_dir name) = true := by
        simp [FS.isfile, hlk]
      have hchk : check_runsh fs (pjoin run_dir name) output_dir FS_option pfix = some 1 := by
        unfold check_runsh
        rw [if_neg]
        rw [hlk]
        simp only [Option.some.injEq]
        exact fun e => hne e
      simp [write_run_scripts, hf, hchk]
    · by_cases hf : fs.isfile (pjoin run_dir n0) = true
      · cases hc : check_runsh fs (pjoin run_dir n0) output_dir FS_option pfix with
        | none => simpa [write_run_scripts, hf, hc] using ih fs hm hlk
        | some code =>
          have : code = 1 := check_runsh_eq_some _ _ _ _ _ _ hc
          subst this
          simp [write_run_scripts, hf, hc]
      · have hnep : pjoin run_dir name ≠ pjoin run_dir n0 := by
          intro e
          rw [e] at hlk
          simp [FS.isfile, hlk] at hf
        have hlk2 : (fs.write (pjoin run_dir n0)
            (make_Freesurfer_runsh_content (pjoin run_dir n0) output_dir FS_option pfix)).lookup
            (pjoin run_dir name) = some c := by
          rw [FS.lookup_write]
          simp [hnep, hlk]
        simpa [write_run_scripts, hf] using ih _ hm hlk2

/-- When `write_run_scripts` finishes without exiting, every requested
script exists afterwards with exactly the freshly generated content. -/
theorem write_run_scripts_complete (script_names : List String)
    (run_dir output_dir : String) (FS_option : Option String) (pfix : String)
    (fs : FS)
    (h : (write_run_scripts script_names run_dir output_dir FS_option pfix fs).2.2 = none)
    (name : String) (hmem : name ∈ script_names) :
    ((write_run_scripts script_names run_dir output_dir FS_option pfix fs).1).lookup
      (pjoin run_dir name)
      = some (make_Freesurfer_runsh_content (pjoin run_dir name) output_dir FS_option pfix) := by
  induction script_names generalizing fs with
  | nil => cases hmem
  | cons n0 rest ih =>
    by_cases hf : fs.isfile (pjoin run_dir n0) = true
    · cases hc : check_runsh fs (pjoin run_dir n0) output_dir FS_option pfix with
      | some code => simp [write_run_scripts, hf, hc] at h
      | none =>
        have hlk0 := check_runsh_eq_none _ _ _ _ _ hc
        rcases List.mem_cons.mp hmem with he | hm
        · subst he
          simpa [write_run_scripts, hf, hc] using
            write_run_scripts_preserves rest run_dir output_dir FS_option pfix fs _ _ hlk0
        · have h2 : (write_run_scripts rest run_dir output_dir FS_option pfix fs).2.2 = none := by
            simpa [write_run_scripts, hf, hc] using h
          simpa [write_run_scripts, hf, hc] using ih fs h2 hm
    · have h2 : (write_run_scripts rest run_dir output_dir FS_option pfix
          (fs.write (pjoin run_dir n0)
            (make_Freesurfer_runsh_content (pjoin run_dir n0) output_dir FS_option pfix))).2.2
          = none := by
        simpa [write_run_scripts, hf] using h
      rcases List.mem_cons.mp hmem with he | hm
      · subst he
        have hlk2 : (fs.write (pjoin run_dir name)
            (make_Freesurfer_runsh_content (pjoin run_dir name) output_dir FS_option pfix)).lookup
            (pjoin run_dir name)
            = some (make_Freesurfer_runsh_content (pjoin run_dir name) output_dir FS_option pfix) := by
          rw [FS.lookup_write]
          simp
        simpa [write_run_scripts, hf] using
          write_run_scripts_preserves rest run_dir output_dir FS_option pfix _ _ _ hlk2
      · simpa [write_run_scripts, hf] using ih _ h2 hm

/-- C1: for every run-script name, `write_run_scripts` writes the script
file only if it does not already exist.  An existing file is never
modified (first conjunct: every pre-existing file keeps its content, so a
script, once written, is never overwritten on a later run); an existing
file whose bytes differ from a freshly generated script makes the program
exit with status 1 (second conjunct), while a completed run leaves every
requested script on disk with exactly the freshly generated content, so
byte-identical files are reused (third conjunct). -/
theorem C1_run_scripts_write_once (script_names : List String)
    (run_dir output_dir : String) (FS_option : Option String) (pfix : String)
    (fs : FS) :
    (∀ p c, fs.lookup p = some c →
      ((write_run_scripts script_names run_dir output_dir FS_option pfix fs).1).lookup p
        = some c)
    ∧ (∀ name ∈ script_names, ∀ c, fs.lookup (pjoin run_dir name) = some c →
        c ≠ make_Freesurfer_runsh_content (pjoin run_dir name) output_dir FS_option pfix →
        (write_run_scripts script_names run_dir output_dir FS_option pfix fs).2.2 = some 1)
    ∧ ((write_run_scripts script_names run_dir output_dir FS_option pfix fs).2.2 = none →
        ∀ name ∈ script_names,
        ((write_run_scripts script_names run_dir output_dir FS_option pfix fs).1).lookup
          (pjoin run_dir name)
          = some (make_Freesurfer_runsh_content (pjoin run_dir name) output_dir FS_option pfix)) :=
  ⟨fun p c h => write_run_scripts_preserves script_names run_dir output_dir FS_option pfix fs p c h,
   fun name hmem c hlk hne =>
    write_run_scripts_mismatch script_names run_dir output_dir FS_option pfix fs name hmem c hlk hne,
   fun h name hmem =>
    write_run_scripts_complete script_names run_dir output_dir FS_option pfix fs h name hmem⟩

/-- Witness for C1 at concrete inputs: a byte-identical existing script is
kept unchanged, and a differing existing script makes the run exit 1. -/
theorem C1_run_scripts_write_once_witness :
    (fsC1.lookup "/proj/FS/bin/run_freesurfer.sh"
      = some (make_Freesurfer_runsh_content "/proj/FS/bin/run_freesurfer.sh" "/proj/FS" none "ABC"))
    ∧ ((write_run_scripts ["run_freesurfer.sh"] "/proj/FS/bin" "/proj/FS" none "ABC" fsC1).1).lookup
        "/proj/FS/bin/run_freesurfer.sh"
      = some (make_Freesurfer_runsh_content "/proj/FS/bin/run_freesurfer.sh" "/proj/FS" none "ABC")
    ∧ (write_run_scripts ["run_freesurfer.sh"] "/proj/FS/bin" "/proj/FS" none "ABC" fsC1bad).2.2
      = some 1 :=
  ⟨by decide,
   (C1_run_scripts_write_once ["run_freesurfer.sh"] "/proj/FS/bin" "/proj/FS" none "ABC" fsC1).1
     "/proj/FS/bin/run_freesurfer.sh" _ (by decide),
   (C1_run_scripts_write_once ["run_freesurfer.sh"] "/proj/FS/bin" "/proj/FS" none "ABC" fsC1bad).2.1
     "run_freesurfer.sh" (by decide) "#!/bin/bash\nstale\n" (by decide) (by decide)⟩

/-- C2: a subject already marked complete is skipped.  In
dm-proc-freesurfer.py, when `<output_dir>/<subject>/scripts/recon-all.done`
exists, the loop body submits nothing and leaves the checklist row
unchanged; in dm_fmriprep.py, `filter_processed` (the guard applied when
`--rewrite` is not given) drops every subject whose
`<out_dir>/<subject>/fmriprep` directory already exists. -/
theorem C2_completed_subjects_skipped :
    (∀ (ctx : LoopCtx) (fs : FS) (row : Row),
      subject_previously_completed fs ctx.output_dir row.id = true →
      process_row ctx fs row = (row, [], false))
    ∧ (∀ (fs : FS) (subjects : List String) (out_dir s : String),
      fs.isdir (pjoin (pjoin out_dir s) "fmriprep") = true →
      s ∉ filter_processed fs subjects out_dir) := by
  constructor
  · intro ctx fs row h
    unfold process_row
    by_cases ht : tag2_skip ctx.TAG2 row.id = true
    · simp [ht]
    · cases hT : row.T1_nii with
      | none => simp [ht, hT]
      | some smap => simp [ht, hT, h]
  · intro fs subjects out_dir s h hmem
    have := (List.mem_filter.mp hmem).2
    simp [h] at this

/-- Witness for C2: the completed subject of `fsC2` is skipped with its
row intact, and the subject with an existing fmriprep output directory is
filtered out. -/
theorem C2_completed_subjects_skipped_witness :
    (subject_previously_completed fsC2 ctxC2.output_dir rowC2.id = true
      ∧ process_row ctxC2 fsC2 rowC2 = (rowC2, [], false))
    ∧ (fsC2.isdir (pjoin (pjoin "/proj/fmriprep" "SPN01_ZHH_0002_01") "fmriprep") = true
      ∧ "SPN01_ZHH_0002_01" ∉ filter_processed fsC2 ["SPN01_ZHH_0002_01"] "/proj/fmriprep") :=
  ⟨⟨by decide, C2_completed_subjects_skipped.1 ctxC2 fsC2 rowC2 (by decide)⟩,
   ⟨by decide,
    C2_completed_subjects_skipped.2 fsC2 ["SPN01_ZHH_0002_01"] "/proj/fmriprep"
      "SPN01_ZHH_0002_01" (by decide)⟩⟩

/-- C3 counterexample: the queue submission `cmdC3` comes back from
`dm.utils.run` with return code 1, yet `docmd` produces no error log and
no exit — the run continues, contradicting the claim that every failed
external invocation logs an error and terminates. -/
theorem C3_counterexample :
    (docmd cmdC3 1 "" "qbatch: command failed").2 = none
    ∧ Event.logErr "qbatch: command failed" ∉ (docmd cmdC3 1 "" "qbatch: command failed").1
    ∧ Event.exited 1 ∉ (docmd cmdC3 1 "" "qbatch: command failed").1 := by
  refine ⟨rfl, ?_, ?_⟩ <;> decide

/-- C3 amended: in dm_fmriprep.py a non-zero return code from the
`nii_to_bids.py` conversion or from the `chmod` spawned by
`write_executable` logs an error and exits with status 1, but
dm-proc-freesurfer.py's `docmd` discards the return code coming back from
`dm.utils.run`, never logs an error and never exits, so a failed queue
submission does not terminate that script. -/
theorem C3_amended_error_handling :
    (∀ (cmd : QBatchCmd) (rtn : Nat) (out err : String),
      (docmd cmd rtn out err).2 = none
      ∧ ∀ m, Event.logErr m ∉ (docmd cmd rtn out err).1)
    ∧ (∀ (study : String) (subs : List String) (rtn : Nat) (err : String) (ok : Bool),
      rtn ≠ 0 →
      (run_bids_conversion study subs rtn err ok).2 = some 1
      ∧ Event.logErr ("datman to BIDS conversion failed! STDERR: " ++ err)
          ∈ (run_bids_conversion study subs rtn err ok).1)
    ∧ (∀ (f : String) (cmds : List String) (rtn : Nat) (err : String) (fs : FS),
      rtn ≠ 0 →
      (write_executable f cmds rtn err fs).2.2 = some 1
      ∧ Event.logErr ("Failed to change permissions on " ++ f)
          ∈ (write_executable f cmds rtn err fs).2.1) := by
  refine ⟨?_, ?_, ?_⟩
  · intro cmd rtn out err
    exact ⟨rfl, by simp [docmd]⟩
  · intro study subs rtn err ok h
    constructor
    · simp [run_bids_conversion, h]
    · simp [run_bids_conversion, h]
  · intro f cmds rtn err fs h
    constructor
    · simp [write_executable, h]
    · simp [write_executable, h]

/-- Witness for C3's amended statement at return code 1. -/
theorem C3_amended_error_handling_witness :
    ((1 : Nat) ≠ 0)
    ∧ (run_bids_conversion "SPINS" ["SPN01_CMH_0001_01"] 1 "boom" true).2 = some 1
    ∧ (write_executable "/tmp/job" ["#!/bin/bash"] 1 "denied" fsEmpty).2.2 = some 1 :=
  ⟨by decide,
   (C3_amended_error_handling.2.1 "SPINS" ["SPN01_CMH_0001_01"] 1 "boom" true (by decide)).1,
   (C3_amended_error_handling.2.2 "/tmp/job" ["#!/bin/bash"] 1 "denied" fsEmpty (by decide)).1⟩

/-- Each loop iteration either skips (no effects, flag false) or submits
exactly one recon job (its qbatch record has no `afterok`). -/
theorem process_row_cases (ctx : LoopCtx) (fs : FS) (row : Row) :
    ((process_row ctx fs row).2.1 = [] ∧ (process_row ctx fs row).2.2 = false)
    ∨ ∃ c : QBatchCmd, (process_row ctx fs row).2.1 = pairEvents c
        ∧ (process_row ctx fs row).2.2 = true ∧ c.afterok = none := by
  by_cases ht : tag2_skip ctx.TAG2 row.id = true
  · left
    constructor <;> simp [process_row, ht]
  · cases hT : row.T1_nii with
    | none =>
      left
      constructor <;> simp [process_row, ht, hT]
    | some smap =>
      by_cases hc : subject_previously_completed fs ctx.output_dir row.id = true
      · left
        constructor <;> simp [process_row, ht, hT, hc]
      · by_cases hr : fs.isfile ((glob_IsRunning fs ctx.output_dir row.id).head?.getD "") = true
        · left
          constructor <;> simp [process_row, ht, hT, hc, hr]
        · right
          exact ⟨make_FS_command ctx.run_dir ctx.script0 ctx.job_name_pre ctx.log_dir
              ctx.walltime (some (row.id, (splitChar ';' smap).flatMap
                (fun basemap => ["-i", pjoin (pjoin ctx.input_dir row.id) basemap]))),
            by simp [process_row, ht, hT, hc, hr],
            by simp [process_row, ht, hT, hc, hr], rfl⟩

/-- The loop's event trace is the submissions of a command list whose
members all lack `afterok`, and the `submitted` flag is set exactly when
that list is non-empty. -/
theorem run_loop_events (ctx : LoopCtx) (fs : FS) (rows : List Row) :
    ∃ cs : List QBatchCmd,
      (run_loop ctx fs rows).2.1 = cs.flatMap pairEvents
      ∧ (∀ c ∈ cs, c.afterok = none)
      ∧ ((run_loop ctx fs rows).2.2 = true ↔ cs ≠ []) := by
  induction rows with
  | nil => exact ⟨[], by simp [run_loop]⟩
  | cons row rest ih =>
    obtain ⟨cs, h1, h2, h3⟩ := ih
    rcases process_row_cases ctx fs row with ⟨e1, e2⟩ | ⟨c, e1, e2, e3⟩
    · refine ⟨cs, ?_, h2, ?_⟩
      · simp [run_loop, e1, h1]
      · simp [run_loop, e2, h3]
    · refine ⟨c :: cs, ?_, ?_, ?_⟩
      · simp [run_loop, e1, h1]
      · intro x hx
        rcases List.mem_cons.mp hx with rfl | hx
        · exact e3
        · exact h2 x hx
      · simp [run_loop, e2]

theorem submitCmds_append (a b : List Event) :
    submitCmds (a ++ b) = submitCmds a ++ submitCmds b := by
  simp [submitCmds, List.filterMap_append]

theorem submitCmds_flatMap_pair (cs : List QBatchCmd) :
    submitCmds (cs.flatMap pairEvents) = cs := by
  induction cs with
  | nil => rfl
  | cons c rest ih =>
    rw [List.flatMap_cons, submitCmds_append, ih]
    rfl

theorem submitCmds_eq_nil_of_runFree (evs : List Event) (h : runFree evs = true) :
    submitCmds evs = [] := by
  induction evs with
  | nil => rfl
  | cons e rest ih =>
    simp only [runFree, List.all_cons, Bool.and_eq_true] at h
    cases e <;> simp_all [submitCmds, runFree]

/-- Every script-phase effect is a script write or an exit. -/
theorem write_run_scripts_events_shape (script_names : List String)
    (run_dir output_dir : String) (FS_option : Option String) (pfix : String)
    (fs : FS) :
    ∀ e ∈ (write_run_scripts script_names run_dir output_dir FS_option pfix fs).2.1,
      (∃ p c, e = Event.writeScript p c) ∨ ∃ n, e = Event.exited n := by
  induction script_names generalizing fs with
  | nil => simp [write_run_scripts]
  | cons n0 rest ih =>
    intro e he
    by_cases hf : fs.isfile (pjoin run_dir n0) = true
    · cases hc : check_runsh fs (pjoin run_dir n0) output_dir FS_option pfix with
      | none =>
        simp only [write_run_scripts, hf, if_pos, hc] at he
        exact ih fs e he
      | some code =>
        simp only [write_run_scripts, hf, if_pos, hc, List.mem_singleton] at he
        exact Or.inr ⟨code, he⟩
    · simp only [write_run_scripts, hf, if_neg, Bool.not_eq_true, List.mem_cons] at he
      rcases he with rfl | he
      · exact Or.inl ⟨_, _, rfl⟩
      · exact ih _ e he

theorem runFree_write_run_scripts (script_names : List String)
    (run_dir output_dir : String) (FS_option : Option String) (pfix : String)
    (fs : FS) :
    runFree (write_run_scripts script_names run_dir output_dir FS_option pfix fs).2.1 = true := by
  rw [runFree, List.all_eq_true]
  intro e he
  rcases write_run_scripts_events_shape script_names run_dir output_dir FS_option pfix fs e he
    with ⟨p, c, rfl⟩ | ⟨n, rfl⟩ <;> rfl

theorem csvFree_write_run_scripts (script_names : List String)
    (run_dir output_dir : String) (FS_option : Option String) (pfix : String)
    (fs : FS) :
    csvFree (write_run_scripts script_names run_dir output_dir FS_option pfix fs).2.1 = true := by
  rw [csvFree, List.all_eq_true]
  intro e he
  rcases write_run_scripts_events_shape script_names run_dir output_dir FS_option pfix fs e he
    with ⟨p, c, rfl⟩ | ⟨n, rfl⟩ <;> rfl

theorem runFree_append (a b : List Event) :
    runFree (a ++ b) = (runFree a && runFree b) := by
  simp [runFree, List.all_append]

theorem csvFree_append (a b : List Event) :
    csvFree (a ++ b) = (csvFree a && csvFree b) := by
  simp [csvFree, List.all_append]

theorem csvFree_flatMap_pair (cs : List QBatchCmd) :
    csvFree (cs.flatMap pairEvents) = true := by
  induction cs with
  | nil => rfl
  | cons c rest ih =>
    rw [List.flatMap_cons, csvFree_append, ih]
    rfl

/-- No `writeCsv` event occurs in a csv-free trace. -/
theorem not_mem_of_csvFree (evs : List Event) (h : csvFree evs = true)
    (p sep : String) (idx : Bool) : Event.writeCsv p sep idx ∉ evs := by
  intro hmem
  rw [csvFree, List.all_eq_true] at h
  simpa using h _ hmem

/-- No submission-start event occurs in a run-free trace. -/
theorem not_runStart_mem_of_runFree (evs : List Event) (h : runFree evs = true)
    (c : QBatchCmd) (d : Bool) : Event.runStart c d ∉ evs := by
  intro hmem
  rw [runFree, List.all_eq_true] at h
  simpa using h _ hmem

/-- All submission-start events of the paired trace of `cs` carry the
module-level `DRYRUN`. -/
theorem runStart_mem_flatMap_pair (cs : List QBatchCmd) (c : QBatchCmd) (d : Bool)
    (h : Event.runStart c d ∈ cs.flatMap pairEvents) : d = DRYRUN := by
  induction cs with
  | nil => cases h
  | cons x rest ih =>
    rw [List.flatMap_cons, List.mem_append] at h
    rcases h with h | h
    · simp only [pairEvents, List.mem_cons, List.mem_singleton] at h
      rcases h with h | h | h
      · cases h
        rfl
      · cases h
      · cases h
    · exact ih h

theorem syncOK_append_runFree (a b : List Event) (h : runFree a = true) :
    syncOK (a ++ b) = syncOK b := by
  induction a with
  | nil => rfl
  | cons e rest ih =>
    simp only [runFree, List.all_cons, Bool.and_eq_true] at h
    cases e
    case runStart c d => exact absurd h.1 (by simp)
    case runEnd c => exact absurd h.1 (by simp)
    all_goals exact ih h.2

theorem syncOK_pair_append (c : QBatchCmd) (b : List Event) :
    syncOK (pairEvents c ++ b) = syncOK b := by
  simp [pairEvents, syncOK]

theorem syncOK_flatMap_pair (cs : List QBatchCmd) (b : List Event) :
    syncOK (cs.flatMap pairEvents ++ b) = syncOK b := by
  induction cs with
  | nil => rfl
  | cons c rest ih =>
    rw [List.flatMap_cons, List.append_assoc, syncOK_pair_append, ih]

theorem syncOK_of_runFree (a : List Event) (h : runFree a = true) :
    syncOK a = true := by
  have h2 := syncOK_append_runFree a [] h
  simpa using h2

/-- Structure of the core of `main`: its trace is the checklist load,
then the recon submissions, then at most one post submission, then the
optional checklist write; the post job carries the `afterok` hold on the
job-name prefix and appears (outside `--postFS-only`) only when a recon
job was submitted, and never with `--no-postFS`. -/
theorem fs_main_core_trace (a : Args) (checklist0 : List Row) (fs1 : FS)
    (script_names : List String) (ts today : String) :
    ∃ (cs post : List QBatchCmd) (csv : List Event),
      (fs_main_core a checklist0 fs1 script_names ts today).1
        = Event.loadChecklist (a.output_dir ++ "/freesurfer-checklist.csv")
            ["id", "T1_nii", "date_ran", "qc_rator", "qc_rating", "notes"]
          :: (cs.flatMap pairEvents ++ (post.flatMap pairEvents ++ csv))
      ∧ (fs_main_core a checklist0 fs1 script_names ts today).2 = none
      ∧ (∀ c ∈ cs, c.afterok = none)
      ∧ post.length ≤ 1
      ∧ (∀ c ∈ post, c.afterok = some ("FS_" ++ ts ++ "_" ++ "*")
          ∧ c.job_name = "FS_" ++ ts ++ "_" ++ "post")
      ∧ (a.POSTFS_ONLY = false → post ≠ [] → cs ≠ [])
      ∧ (a.NO_POST = true → a.POSTFS_ONLY = false → post = [])
      ∧ (a.dry_run = true → csv = [])
      ∧ (a.dry_run = false →
          csv = [Event.writeCsv (a.output_dir ++ "/freesurfer-checklist.csv") "," false]) := by
  by_cases hPO : a.POSTFS_ONLY = true
  · refine ⟨[], [make_FS_command (pjoin a.output_dir "bin") (script_names.headD "")
        ("FS_" ++ ts ++ "_") (pjoin a.output_dir "logs") a.walltime_post none],
      (if a.dry_run then []
       else [Event.writeCsv (a.output_dir ++ "/freesurfer-checklist.csv") "," false]),
      ?_, rfl, by simp, by simp, ?_, ?_, ?_, ?_, ?_⟩
    · simp [fs_main_core, hPO, pairEvents]
    · intro c hmem
      rcases List.mem_singleton.mp hmem with rfl
      exact ⟨rfl, rfl⟩
    · intro h
      rw [h] at hPO
      cases hPO
    · intro _ h
      rw [h] at hPO
      cases hPO
    · intro h
      simp [h]
    · intro h
      simp [h]
  · have hPO2 : a.POSTFS_ONLY = false := by
      cases h : a.POSTFS_ONLY
      · rfl
      · exact absurd h hPO
    obtain ⟨cs, h1, h2, h3⟩ := run_loop_events
      { input_dir := a.input_dir, output_dir := a.output_dir,
        run_dir := pjoin a.output_dir "bin", log_dir := pjoin a.output_dir "logs",
        TAG2 := a.TAG2, walltime := a.walltime, script0 := script_names.head?.getD "",
        job_name_pre := "FS_" ++ ts ++ "_", today := today } fs1 checklist0
    by_cases hNP : a.NO_POST = true
    · refine ⟨cs, [],
        (if a.dry_run then []
         else [Event.writeCsv (a.output_dir ++ "/freesurfer-checklist.csv") "," false]),
        ?_, rfl, h2, by simp, by simp, ?_, ?_, ?_, ?_⟩
      · simp [fs_main_core, hPO2, hNP, h1]
      · intro _ h
        exact absurd rfl h
      · intro _ _
        rfl
      · intro h
        simp [h]
      · intro h
        simp [h]
    · have hNP2 : a.NO_POST = false := by
        cases h : a.NO_POST
        · rfl
        · exact absurd h hNP
      cases hsub : (run_loop
          { input_dir := a.input_dir, output_dir := a.output_dir,
            run_dir := pjoin a.output_dir "bin", log_dir := pjoin a.output_dir "logs",
            TAG2 := a.TAG2, walltime := a.walltime, script0 := script_names.head?.getD "",
            job_name_pre := "FS_" ++ ts ++ "_", today := today } fs1 checklist0).2.2 with
      | false =>
        have hcs : cs = [] := by
          cases cs with
          | nil => rfl
          | cons x xs =>
            have := h3.mpr (by simp)
            rw [this] at hsub
            cases hsub
        refine ⟨cs, [],
          (if a.dry_run then []
           else [Event.writeCsv (a.output_dir ++ "/freesurfer-checklist.csv") "," false]),
          ?_, rfl, h2, by simp, by simp, ?_, ?_, ?_, ?_⟩
        · simp [fs_main_core, hPO2, hNP2, hsub, h1]
        · intro _ h
          exact absurd rfl h
        · intro _ _
          rfl
        · intro h
          simp [h]
        · intro h
          simp [h]
      | true =>
        refine ⟨cs, [make_FS_command (pjoin a.output_dir "bin")
            ((script_names.drop 1).headD "") ("FS_" ++ ts ++ "_")
            (pjoin a.output_dir "logs") a.walltime_post none],
          (if a.dry_run then []
           else [Event.writeCsv (a.output_dir ++ "/freesurfer-checklist.csv") "," false]),
          ?_, rfl, h2, by simp, ?_, ?_, ?_, ?_, ?_⟩
        · simp [fs_main_core, hPO2, hNP2, hsub, h1, pairEvents]
        · intro c hmem
          rcases List.mem_singleton.mp hmem with rfl
          exact ⟨rfl, rfl⟩
        · intro _ _
          exact h3.mp hsub
        · intro h
          rw [h] at hNP2
          cases hNP2
        · intro h
          simp [h]
        · intro h
          simp [h]

/-- Structure of a whole run of dm-proc-freesurfer.py: either it exits
early with a code (having submitted nothing and written no checklist), or
it completes with the trace of `fs_main_core_trace` after a
submission-free, csv-free prefix containing the checklist load. -/
theorem fs_main_trace (a : Args) (subjects : List String) (checklist0 : List Row)
    (fs0 : FS) (ts today : String) :
    ((∃ k, (fs_main a subjects checklist0 fs0 ts today).2 = some k)
      ∧ runFree (fs_main a subjects checklist0 fs0 ts today).1 = true
      ∧ csvFree (fs_main a subjects checklist0 fs0 ts today).1 = true)
    ∨ ∃ (pre : List Event) (cs post : List QBatchCmd) (csv : List Event),
        (fs_main a subjects checklist0 fs0 ts today).2 = none
        ∧ (fs_main a subjects checklist0 fs0 ts today).1
            = pre ++ (cs.flatMap pairEvents ++ (post.flatMap pairEvents ++ csv))
        ∧ runFree pre = true
        ∧ csvFree pre = true
        ∧ Event.loadChecklist (a.output_dir ++ "/freesurfer-checklist.csv")
            ["id", "T1_nii", "date_ran", "qc_rator", "qc_rating", "notes"] ∈ pre
        ∧ (∀ c ∈ cs, c.afterok = none)
        ∧ post.length ≤ 1
        ∧ (∀ c ∈ post, c.afterok = some ("FS_" ++ ts ++ "_" ++ "*")
            ∧ c.job_name = "FS_" ++ ts ++ "_" ++ "post")
        ∧ (a.POSTFS_ONLY = false → post ≠ [] → cs ≠ [])
        ∧ (a.NO_POST = true → post = [])
        ∧ (a.dry_run = true → csv = [])
        ∧ (a.dry_run = false →
            csv = [Event.writeCsv (a.output_dir ++ "/freesurfer-checklist.csv") "," false]) := by
  by_cases hconf : post_settings_conflict a.NO_POST a.POSTFS_ONLY = true
  · left
    refine ⟨⟨1, ?_⟩, ?_, ?_⟩ <;> simp [fs_main, hconf, runFree, csvFree]
  · by_cases hlen : subjects.length = 0
    · left
      refine ⟨⟨1, ?_⟩, ?_, ?_⟩ <;> simp [fs_main, hconf, hlen, runFree, csvFree]
    · cases hw : (write_run_scripts (get_run_script_names a.RUN_TAG a.POSTFS_ONLY a.NO_POST)
          (pjoin a.output_dir "bin") a.output_dir a.FS_option
          (a.pfix_opt.getD (strTake (subjects.head?.getD "") 3)) fs0).2.2 with
      | some code =>
        left
        have htr : (fs_main a subjects checklist0 fs0 ts today).1
            = [Event.makedirs (pjoin a.output_dir "logs"),
               Event.makedirs (pjoin a.output_dir "bin"),
               Event.getSubjectList a.input_dir a.TAG2 a.QC_file]
              ++ (write_run_scripts (get_run_script_names a.RUN_TAG a.POSTFS_ONLY a.NO_POST)
                  (pjoin a.output_dir "bin") a.output_dir a.FS_option
                  (a.pfix_opt.getD (strTake (subjects.head?.getD "") 3)) fs0).2.1 := by
          simp [fs_main, hconf, hlen, hw]
        refine ⟨⟨code, ?_⟩, ?_, ?_⟩
        · simp [fs_main, hconf, hlen, hw]
        · rw [htr, runFree_append, runFree_write_run_scripts]
          rfl
        · rw [htr, csvFree_append, csvFree_write_run_scripts]
          rfl
      | none =>
        right
        obtain ⟨cs, post, csv, hc1, hc2, hc3, hc4, hc5, hc6, hc7, hc8, hc9⟩ :=
          fs_main_core_trace a checklist0
            (write_run_scripts (get_run_script_names a.RUN_TAG a.POSTFS_ONLY a.NO_POST)
              (pjoin a.output_dir "bin") a.output_dir a.FS_option
              (a.pfix_opt.getD (strTake (subjects.head?.getD "") 3)) fs0).1
            (get_run_script_names a.RUN_TAG a.POSTFS_ONLY a.NO_POST) ts today
        have hPOfromNP : a.NO_POST = true → a.POSTFS_ONLY = false := by
          intro hNP
          cases hpo : a.POSTFS_ONLY
          · rfl
          · exact absurd (by simp [post_settings_conflict, hNP, hpo]) hconf
        refine ⟨[Event.makedirs (pjoin a.output_dir "logs"),
            Event.makedirs (pjoin a.output_dir "bin"),
            Event.getSubjectList a.input_dir a.TAG2 a.QC_file]
            ++ ((write_run_scripts (get_run_script_names a.RUN_TAG a.POSTFS_ONLY a.NO_POST)
                (pjoin a.output_dir "bin") a.output_dir a.FS_option
                (a.pfix_opt.getD (strTake (subjects.head?.getD "") 3)) fs0).2.1
              ++ [Event.loadChecklist (a.output_dir ++ "/freesurfer-checklist.csv")
                  ["id", "T1_nii", "date_ran", "qc_rator", "qc_rating", "notes"]]),
          cs, post, csv, ?_, ?_, ?_, ?_, ?_, hc3, hc4, hc5, hc6,
          fun hNP => hc7 hNP (hPOfromNP hNP), hc8, hc9⟩
        · simp [fs_main, hconf, hlen, hw, hc2]
        · have htr : (fs_main a subjects checklist0 fs0 ts today).1
              = [Event.makedirs (pjoin a.output_dir "logs"),
                 Event.makedirs (pjoin a.output_dir "bin"),
                 Event.getSubjectList a.input_dir a.TAG2 a.QC_file]
                ++ (write_run_scripts (get_run_script_names a.RUN_TAG a.POSTFS_ONLY a.NO_POST)
                    (pjoin a.output_dir "bin") a.output_dir a.FS_option
                    (a.pfix_opt.getD (strTake (subjects.head?.getD "") 3)) fs0).2.1
                ++ (fs_main_core a checklist0
                    (write_run_scripts (get_run_script_names a.RUN_TAG a.POSTFS_ONLY a.NO_POST)
                      (pjoin a.output_dir "bin") a.output_dir a.FS_option
                      (a.pfix_opt.getD (strTake (subjects.head?.getD "") 3)) fs0).1
                    (get_run_script_names a.RUN_TAG a.POSTFS_ONLY a.NO_POST) ts today).1 := by
            simp [fs_main, hconf, hlen, hw]
          rw [htr, hc1]
          simp [List.append_assoc]
        · rw [runFree_append, runFree_append, runFree_write_run_scripts]
          rfl
        · rw [csvFree_append, csvFree_append, csvFree_write_run_scripts]
          rfl
        · simp

/-- C4: in every run of dm-proc-freesurfer.py the submissions form a
single two-stage ordering: first the per-subject recon jobs (no
`afterok`), then at most one post-processing job holding an `afterok` on
the run's job-name prefix; outside `--postFS-only` the post job appears
only if at least one recon job was submitted in that run, and never when
`--no-postFS` is set. -/
theorem C4_two_stage_ordering (a : Args) (subjects : List String)
    (checklist0 : List Row) (fs0 : FS) (ts today : String) :
    ∃ recs post : List QBatchCmd,
      submitCmds (fs_main a subjects checklist0 fs0 ts today).1 = recs ++ post
      ∧ (∀ c ∈ recs, c.afterok = none)
      ∧ post.length ≤ 1
      ∧ (∀ c ∈ post, c.afterok = some ("FS_" ++ ts ++ "_" ++ "*")
          ∧ c.job_name = "FS_" ++ ts ++ "_" ++ "post")
      ∧ (a.POSTFS_ONLY = false → post ≠ [] → recs ≠ [])
      ∧ (a.NO_POST = true → post = []) := by
  rcases fs_main_trace a subjects checklist0 fs0 ts today with
    ⟨_, hrf, _⟩ |
    ⟨pre, cs, post, csv, _, htr, hprf, _, _, hcs, hplen, hpost, himp, hnp, hdt, hdf⟩
  · exact ⟨[], [], by rw [submitCmds_eq_nil_of_runFree _ hrf]; rfl, by simp, by simp,
      by simp, fun _ h => absurd rfl h, fun _ => rfl⟩
  · refine ⟨cs, post, ?_, hcs, hplen, hpost, himp, hnp⟩
    have hcsv : submitCmds csv = [] := by
      cases hd : a.dry_run
      · rw [hdf hd]
        rfl
      · rw [hdt hd]
        rfl
    rw [htr, submitCmds_append, submitCmds_append, submitCmds_append,
      submitCmds_eq_nil_of_runFree _ hprf, submitCmds_flatMap_pair,
      submitCmds_flatMap_pair, hcsv]
    simp

/-- Witness for C4 on a concrete full run with one fresh subject. -/
theorem C4_two_stage_ordering_witness :
    ∃ recs post : List QBatchCmd,
      submitCmds (fs_main argsW ["SPN01_CMH_0002_01"] [rowFresh] fsEmpty
        "20260101-000000" "2026-01-01").1 = recs ++ post
      ∧ (∀ c ∈ recs, c.afterok = none)
      ∧ post.length ≤ 1
      ∧ (∀ c ∈ post, c.afterok = some ("FS_" ++ "20260101-000000" ++ "_" ++ "*")
          ∧ c.job_name = "FS_" ++ "20260101-000000" ++ "_" ++ "post")
      ∧ (argsW.POSTFS_ONLY = false → post ≠ [] → recs ≠ [])
      ∧ (argsW.NO_POST = true → post = []) :=
  C4_two_stage_ordering argsW ["SPN01_CMH_0002_01"] [rowFresh] fsEmpty
    "20260101-000000" "2026-01-01"

/-- C6: a completed run of dm-proc-freesurfer.py loads the checklist from
`<output_dir>/freesurfer-checklist.csv` with exactly the columns
`id, T1_nii, date_ran, qc_rator, qc_rating, notes` in that order, and
(except under `--dry-run`) its very last action writes the checklist back
to the same path as comma-separated CSV without an index column. -/
theorem C6_checklist_path_columns (a : Args) (subjects : List String)
    (checklist0 : List Row) (fs0 : FS) (ts today : String)
    (h : (fs_main a subjects checklist0 fs0 ts today).2 = none) :
    Event.loadChecklist (a.output_dir ++ "/freesurfer-checklist.csv")
        ["id", "T1_nii", "date_ran", "qc_rator", "qc_rating", "notes"]
      ∈ (fs_main a subjects checklist0 fs0 ts today).1
    ∧ (a.dry_run = false →
      (fs_main a subjects checklist0 fs0 ts today).1.getLast?
        = some (Event.writeCsv (a.output_dir ++ "/freesurfer-checklist.csv") "," false)) := by
  rcases fs_main_trace a subjects checklist0 fs0 ts today with
    ⟨⟨k, hk⟩, _, _⟩ |
    ⟨pre, cs, post, csv, _, htr, _, _, hmem, _, _, _, _, _, _, hdf⟩
  · rw [hk] at h
    cases h
  · constructor
    · rw [htr]
      exact List.mem_append.mpr (Or.inl hmem)
    · intro hd
      rw [htr, hdf hd, List.getLast?_append, List.getLast?_append, List.getLast?_append]
      rfl

/-- Witness for C6 on a concrete completed run. -/
theorem C6_checklist_path_columns_witness :
    (fs_main argsW ["SPN01_CMH_0002_01"] [rowFresh] fsEmpty
      "20260101-000000" "2026-01-01").2 = none
    ∧ Event.loadChecklist (argsW.output_dir ++ "/freesurfer-checklist.csv")
        ["id", "T1_nii", "date_ran", "qc_rator", "qc_rating", "notes"]
      ∈ (fs_main argsW ["SPN01_CMH_0002_01"] [rowFresh] fsEmpty
        "20260101-000000" "2026-01-01").1
    ∧ (fs_main argsW ["SPN01_CMH_0002_01"] [rowFresh] fsEmpty
        "20260101-000000" "2026-01-01").1.getLast?
      = some (Event.writeCsv (argsW.output_dir ++ "/freesurfer-checklist.csv") "," false) :=
  ⟨by decide,
   (C6_checklist_path_columns argsW ["SPN01_CMH_0002_01"] [rowFresh] fsEmpty
     "20260101-000000" "2026-01-01" (by decide)).1,
   (C6_checklist_path_columns argsW ["SPN01_CMH_0002_01"] [rowFresh] fsEmpty
     "20260101-000000" "2026-01-01" (by decide)).2 rfl⟩

/-- C8: with both `--no-postFS` and `--postFS-only` set,
dm-proc-freesurfer.py makes its two log/bin directories, logs the conflict
and exits with status 1 — the whole trace; so no subject listing, no run
script write, no checklist access and no submission happen. -/
theorem C8_conflict_exits_first (a : Args) (subjects : List String)
    (checklist0 : List Row) (fs0 : FS) (ts today : String)
    (h1 : a.NO_POST = true) (h2 : a.POSTFS_ONLY = true) :
    fs_main a subjects checklist0 fs0 ts today
      = ([Event.makedirs (pjoin a.output_dir "logs"),
          Event.makedirs (pjoin a.output_dir "bin"),
          Event.logErr "--no-postFS and --postFS-only cannot both be set. Exiting",
          Event.exited 1], some 1) := by
  simp [fs_main, post_settings_conflict, h1, h2]

/-- Witness for C8 at a concrete conflicting invocation. -/
theorem C8_conflict_exits_first_witness :
    argsConflict.NO_POST = true ∧ argsConflict.POSTFS_ONLY = true
    ∧ fs_main argsConflict ["SPN01_CMH_0002_01"] [] fsEmpty
        "20260101-000000" "2026-01-01"
      = ([Event.makedirs (pjoin argsConflict.output_dir "logs"),
          Event.makedirs (pjoin argsConflict.output_dir "bin"),
          Event.logErr "--no-postFS and --postFS-only cannot both be set. Exiting",
          Event.exited 1], some 1) :=
  ⟨rfl, rfl,
   C8_conflict_exits_first argsConflict ["SPN01_CMH_0002_01"] [] fsEmpty
     "20260101-000000" "2026-01-01" rfl rfl⟩

/-- C9: under `--dry-run`, dm-proc-freesurfer.py never writes the
checklist CSV back to disk, yet every queue submission issued through
`docmd` is still executed: `docmd` reads the module-level `DRYRUN`, which
stays `false` because the assignment in `main` creates a local variable
and never updates the global. -/
theorem C9_dryrun_is_local (a : Args) (subjects : List String)
    (checklist0 : List Row) (fs0 : FS) (ts today : String)
    (hd : a.dry_run = true) :
    (∀ p sep idx, Event.writeCsv p sep idx ∉ (fs_main a subjects checklist0 fs0 ts today).1)
    ∧ (∀ c d, Event.runStart c d ∈ (fs_main a subjects checklist0 fs0 ts today).1 →
        d = DRYRUN ∧ run_executes d = true) := by
  rcases fs_main_trace a subjects checklist0 fs0 ts today with
    ⟨_, hrf, hcf⟩ |
    ⟨pre, cs, post, csv, _, htr, hprf, hpcf, _, _, _, _, _, _, hdt, _⟩
  · exact ⟨fun p sep idx => not_mem_of_csvFree _ hcf p sep idx,
      fun c d hmem => absurd hmem (not_runStart_mem_of_runFree _ hrf c d)⟩
  · have hcsv : csv = [] := hdt hd
    subst hcsv
    constructor
    · intro p sep idx hmem
      rw [htr] at hmem
      rcases List.mem_append.mp hmem with hmem | hmem
      · exact not_mem_of_csvFree _ hpcf p sep idx hmem
      · rcases List.mem_append.mp hmem with hmem | hmem
        · exact not_mem_of_csvFree _ (csvFree_flatMap_pair cs) p sep idx hmem
        · rcases List.mem_append.mp hmem with hmem | hmem
          · exact not_mem_of_csvFree _ (csvFree_flatMap_pair post) p sep idx hmem
          · cases hmem
    · intro c d hmem
      rw [htr] at hmem
      rcases List.mem_append.mp hmem with hmem | hmem
      · exact absurd hmem (not_runStart_mem_of_runFree _ hprf c d)
      · rcases List.mem_append.mp hmem with hmem | hmem
        · have hdm := runStart_mem_flatMap_pair cs c d hmem
          exact ⟨hdm, by rw [hdm]; rfl⟩
        · rcases List.mem_append.mp hmem with hmem | hmem
          · have hdm := runStart_mem_flatMap_pair post c d hmem
            exact ⟨hdm, by rw [hdm]; rfl⟩
          · cases hmem

/-- Witness for C9 on a concrete `--dry-run` run: the checklist write is
absent from the trace while the recon submission for the fresh subject is
present and executed. -/
theorem C9_dryrun_is_local_witness :
    argsDry.dry_run = true
    ∧ Event.writeCsv (argsDry.output_dir ++ "/freesurfer-checklist.csv") "," false
        ∉ (fs_main argsDry ["SPN01_CMH_0002_01"] [rowFresh] fsEmpty
          "20260101-000000" "2026-01-01").1
    ∧ Event.runStart cmdC9 false
        ∈ (fs_main argsDry ["SPN01_CMH_0002_01"] [rowFresh] fsEmpty
          "20260101-000000" "2026-01-01").1
    ∧ run_executes false = true :=
  ⟨rfl,
   (C9_dryrun_is_local argsDry ["SPN01_CMH_0002_01"] [rowFresh] fsEmpty
     "20260101-000000" "2026-01-01" rfl).1 _ "," false,
   by decide,
   ((C9_dryrun_is_local argsDry ["SPN01_CMH_0002_01"] [rowFresh] fsEmpty
     "20260101-000000" "2026-01-01" rfl).2 cmdC9 false (by decide)).2⟩

/-- C10: every queue submission in a dm-proc-freesurfer.py run is issued
one at a time and synchronously — each `dm.utils.run` call returns before
anything further happens, so submission start/finish events are strictly
paired in the trace (dm_fmriprep.py never reaches a submission at all,
and neither script creates threads: the whole run is one sequential
trace). -/
theorem C10_submissions_synchronous (a : Args) (subjects : List String)
    (checklist0 : List Row) (fs0 : FS) (ts today : String) :
    syncOK (fs_main a subjects checklist0 fs0 ts today).1 = true := by
  rcases fs_main_trace a subjects checklist0 fs0 ts today with
    ⟨_, hrf, _⟩ |
    ⟨pre, cs, post, csv, _, htr, hprf, _, _, _, _, _, _, _, hdt, hdf⟩
  · exact syncOK_of_runFree _ hrf
  · rw [htr, syncOK_append_runFree _ _ hprf, syncOK_flatMap_pair, syncOK_flatMap_pair]
    cases hd : a.dry_run
    · rw [hdf hd]
      rfl
    · rw [hdt hd]
      rfl

/-- The substring test agrees with list-infix on the underlying chars. -/
theorem containsSubAux_eq_true_iff (p sl : List Char) :
    containsSubAux p sl = true ↔ p <:+: sl := by
  induction sl with
  | nil =>
    simp only [containsSubAux, List.isEmpty_iff]
    constructor
    · intro h
      simp [h]
    · intro h
      exact List.eq_nil_of_infix_nil h
  | cons c t ih =>
    simp only [containsSubAux, Bool.or_eq_true]
    constructor
    · rintro (h | h)
      · exact (List.isPrefixOf_iff_prefix.mp h).isInfix
      · exact List.infix_cons (ih.mp h)
    · intro h
      rcases List.infix_cons_iff.mp h with h | h
      · exact Or.inl (List.isPrefixOf_iff_prefix.mpr h)
      · exact Or.inr (ih.mpr h)

theorem containsSub_of_infix (s p : String) (h : p.data <:+: s.data) :
    containsSub s p = true :=
  (containsSubAux_eq_true_iff p.data s.data).mpr h

theorem infix_of_containsSub (s p : String) (h : containsSub s p = true) :
    p.data <:+: s.data :=
  (containsSubAux_eq_true_iff p.data s.data).mp h

theorem containsSub_mid (A B C : String) : containsSub (A ++ B ++ C) B = true := by
  apply containsSub_of_infix
  rw [String.data_append, String.data_append]
  exact List.infix_append A.data B.data C.data

theorem containsSub_right (A B : String) : containsSub (A ++ B) B = true := by
  apply containsSub_of_infix
  rw [String.data_append]
  exact (List.suffix_append A.data B.data).isInfix

theorem containsSub_trans (s t p : String) (h1 : containsSub s t = true)
    (h2 : containsSub t p = true) : containsSub s p = true :=
  containsSub_of_infix s p ((infix_of_containsSub t p h2).trans (infix_of_containsSub s t h1))

/-- C5 counterexample: at output dir `/proj/FS` and prefix `ABC`, the
generated post-freesurfer script does not contain the invocation
`ENIGMA_ExtractCortical.sh` that the claim names — the script writes the
transposed spelling `ENGIMA_...` (cf. the positive conjuncts of the
amended theorem). -/
theorem C5_counterexample :
    containsSub (make_Freesurfer_runsh_content "postfreesurfer.sh" "/proj/FS" none "ABC")
      "ENIGMA_ExtractCortical.sh" = false := by decide

/-- C5 amended: the generated FreeSurfer run script contains the
`recon-all -all ... -subjid ${SUBJECT} ${T1MAPS} -qcache` invocation
(with the `--FS-option` string when given), the post-FreeSurfer script
contains the `ENGIMA_ExtractCortical.sh` / `ENGIMA_ExtractSubcortical.sh`
invocations (the script's spelling, not `ENIGMA_...`) with the subjects
dir and prefix, and the fmriprep job script contains a
`singularity run` invocation with the bids, work, output and license
bind mounts, the participant label and the license file. -/
theorem C5_amended_script_invocations (output_dir pfix : String)
    (FS_option : Option String) (simg env_bids env_out subject : String)
    (fs_license : Option String) :
    containsSub (make_Freesurfer_runsh_content "run_freesurfer.sh" output_dir FS_option pfix)
      ("\nrecon-all -all "
        ++ (match FS_option with | some o => o ++ " " | none => "")
        ++ ("-subjid $\x7bSUBJECT\x7d $\x7bT1MAPS\x7d" ++ " -qcache\n")) = true
    ∧ containsSub (make_Freesurfer_runsh_content "postfreesurfer.sh" output_dir FS_option pfix)
        ("ENGIMA_ExtractCortical.sh $\x7bSUBJECTS_DIR\x7d " ++ pfix ++ "\n") = true
    ∧ containsSub (make_Freesurfer_runsh_content "postfreesurfer.sh" output_dir FS_option pfix)
        ("ENGIMA_ExtractSubcortical.sh $\x7bSUBJECTS_DIR\x7d " ++ pfix ++ "\n") = true
    ∧ containsSub (gen_jobscript simg env_bids env_out subject fs_license)
        "singularity run -H $HOME -B $BIDS:/bids -B $WORK:/work -B $OUT:/out -B $LICENSE:/li" = true
    ∧ containsSub (gen_jobscript simg env_bids env_out subject fs_license)
        "participant --participant-label $SUB" = true
    ∧ containsSub (gen_jobscript simg env_bids env_out subject fs_license)
        "--fs-license-file /li/license.txt" = true := by
  have hgen : containsSub (gen_jobscript simg env_bids env_out subject fs_license)
      fmri_cmd = true :=
    containsSub_mid ("#!/bin/bash" ++ trap_func
        ++ init_cmd env_bids simg (bids_sub subject) env_out
        ++ fs_cmd fs_license ++ echo_func)
      fmri_cmd "\n cleanup \n"
  refine ⟨?_, ?_, ?_, ?_, ?_, ?_⟩
  · have hb : (!containsSub (basename "run_freesurfer.sh") "postfreesurfer") = true := by decide
    have hEeq : make_Freesurfer_runsh_content "run_freesurfer.sh" output_dir FS_option pfix
        = ("#!/bin/bash\n\n" ++ ("export SUBJECTS_DIR=" ++ output_dir ++ "\n\n")
            ++ "## Prints loaded modules to the log\nmodule list\n\n"
            ++ "SUBJECT=$\x7b1\x7d\n" ++ "shift\n" ++ "T1MAPS=$\x7b@\x7d\n")
          ++ ("\nrecon-all -all "
            ++ (match FS_option with | some o => o ++ " " | none => "")
            ++ ("-subjid $\x7bSUBJECT\x7d $\x7bT1MAPS\x7d" ++ " -qcache\n")) := by
      simp only [make_Freesurfer_runsh_content, hb, if_true, String.append_assoc]
    rw [hEeq]
    exact containsSub_right _ _
  · have hb : (!containsSub (basename "postfreesurfer.sh") "postfreesurfer") = false := by decide
    simp only [make_Freesurfer_runsh_content, hb, Bool.false_eq_true, if_false]
    exact containsSub_mid _ _ _
  · have hb : (!containsSub (basename "postfreesurfer.sh") "postfreesurfer") = false := by decide
    simp only [make_Freesurfer_runsh_content, hb, Bool.false_eq_true, if_false]
    exact containsSub_right _ _
  · exact containsSub_trans _ fmri_cmd _ hgen (by decide)
  · exact containsSub_trans _ fmri_cmd _ hgen (by decide)
  · exact containsSub_trans _ fmri_cmd _ hgen (by decide)

theorem qsubCmds_fmriprep_loop (ig : Bool) (simg bids out : String)
    (lic : Option String) (jf : String) (cr : Nat) (subs : List String) :
    qsubCmds (fmriprep_loop ig simg bids out lic jf cr subs).1 = [] := by
  cases subs with
  | nil => rfl
  | cons s rest =>
    by_cases hig : ig = true
    · by_cases hcr : cr ≠ 0
      · simp [fmriprep_loop, hig, hcr, submit_jobfile, qsubCmds]
      · simp [fmriprep_loop, hig, hcr, submit_jobfile, qsubCmds]
    · have hig2 : ig = false := by
        cases h : ig
        · rfl
        · exact absurd h hig
      simp [fmriprep_loop, hig2, qsubCmds]

theorem qsubCmds_fmriprep_main (a : FmriArgs) (sv : Bool) (sb dp : String)
    (nl : List String) (fs : FS) (jf : String) (cr : Nat) :
    qsubCmds (fmriprep_main a sv sb dp nl fs jf cr).1 = [] := by
  by_cases hsv : sv = true
  · by_cases hrw : a.rewrite = true
    · simp [fmriprep_main, hsv, hrw, qsubCmds_fmriprep_loop]
    · have hrw2 : a.rewrite = false := by
        cases h : a.rewrite
        · rfl
        · exact absurd h hrw
      by_cases hsubs : a.subjects.isEmpty = true
      · simp [fmriprep_main, hsv, hrw2, hsubs, qsubCmds_fmriprep_loop]
      · have hsubs2 : a.subjects.isEmpty = false := by
          cases h : a.subjects.isEmpty
          · rfl
          · exact absurd h hsubs
        simp [fmriprep_main, hsv, hrw2, hsubs2, qsubCmds]
  · have hsv2 : sv = false := by
      cases h : sv
      · rfl
      · exact absurd h hsv
    simp [fmriprep_main, hsv2, qsubCmds]

/-- C7: dm_fmriprep.py never submits a job to the queue.  The `qsub`
Popen of `submit_jobfile` is unreachable: with no subject IDs on the
command line the submission loop iterates the empty `<subjects>` list (the
discovered `proj_subjects` are never iterated), and with subject IDs
supplied the run evaluates an undefined name first — `proj_subjects` when
`--rewrite` is off, `fetch_fs_recon` when `--ignore-recon` is off, and
`err_path` inside `submit_jobfile` otherwise — raising `NameError` before
any submission. -/
theorem C7_fmriprep_never_submits (a : FmriArgs) (study_valid : Bool)
    (study_base data_path : String) (nii_listing : List String) (fs : FS)
    (job_file : String) (chmod_rtn : Nat) :
    qsubCmds (fmriprep_main a study_valid study_base data_path nii_listing fs
      job_file chmod_rtn).1 = []
    ∧ (study_valid = true → a.subjects = [] →
        (fmriprep_main a study_valid study_base data_path nii_listing fs
          job_file chmod_rtn).2 = Outcome.ok)
    ∧ (study_valid = true → a.subjects ≠ [] → a.rewrite = false →
        (fmriprep_main a study_valid study_base data_path nii_listing fs
          job_file chmod_rtn).2
          = Outcome.raised "NameError: name proj_subjects is not defined")
    ∧ (study_valid = true → a.subjects ≠ [] → a.rewrite = true → a.ignore_recon = false →
        (fmriprep_main a study_valid study_base data_path nii_listing fs
          job_file chmod_rtn).2
          = Outcome.raised "NameError: name fetch_fs_recon is not defined")
    ∧ (study_valid = true → a.subjects ≠ [] → a.rewrite = true → a.ignore_recon = true →
        chmod_rtn = 0 →
        (fmriprep_main a study_valid study_base data_path nii_listing fs
          job_file chmod_rtn).2
          = Outcome.raised "NameError: name err_path is not defined") := by
  refine ⟨qsubCmds_fmriprep_main a study_valid study_base data_path nii_listing fs
    job_file chmod_rtn, ?_, ?_, ?_, ?_⟩
  · intro hsv hempty
    cases hrw : a.rewrite
    · simp [fmriprep_main, hsv, hrw, hempty, fmriprep_loop]
    · simp [fmriprep_main, hsv, hrw, hempty, fmriprep_loop]
  · intro hsv hne hrw
    have hie : a.subjects.isEmpty = false := by
      cases hs : a.subjects
      · exact absurd hs hne
      · rfl
    simp [fmriprep_main, hsv, hrw, hie]
  · intro hsv hne hrw hig
    cases hs : a.subjects with
    | nil => exact absurd hs hne
    | cons s rest =>
      simp [fmriprep_main, hsv, hrw, hs, fmriprep_loop, hig]
  · intro hsv hne hrw hig hcr
    cases hs : a.subjects with
    | nil => exact absurd hs hne
    | cons s rest =>
      simp [fmriprep_main, hsv, hrw, hs, fmriprep_loop, hig, hcr, submit_jobfile]

/-- Witness for C7: with supplied subjects, `--rewrite` and
`--ignore-recon`, the run reaches `submit_jobfile` and dies on the
undefined `err_path` with nothing submitted. -/
theorem C7_fmriprep_never_submits_witness :
    (fargsW.subjects ≠ [])
    ∧ qsubCmds (fmriprep_main fargsW true "/proj" "/proj/data" [] fsEmpty "/tmp/job" 0).1 = []
    ∧ (fmriprep_main fargsW true "/proj" "/proj/data" [] fsEmpty "/tmp/job" 0).2
      = Outcome.raised "NameError: name err_path is not defined" :=
  ⟨by decide,
   (C7_fmriprep_never_submits fargsW true "/proj" "/proj/data" [] fsEmpty "/tmp/job" 0).1,
   (C7_fmriprep_never_submits fargsW true "/proj" "/proj/data" [] fsEmpty "/tmp/job" 0).2.2.2.2
     rfl (by decide) rfl rfl rfl⟩

end Datman
